import Mathlib

/-!
# Verification of the gpsd distribution/control plane

Shallow embedding of the core functions of the gpsd tree under study:

* `gpsd_source_spec` (src/libgps/gpsdclient.c) — endpoint-spec parsing,
  modelled over an explicit character buffer because the C code mutates
  its argument in place;
* `export_lookup` / `export_default` (src/libgps/gpsdclient.c) — the
  export-method registry;
* `gpsd_control` (src/clients/gpsdctl.c) — the control-channel client,
  modelled as a function from an environment of syscall outcomes to a
  return status plus an ordered trace of externally visible I/O events;
* `shm_update` (src/gpsd/shmexport.c) — the shared-memory publisher,
  modelled as an ordered trace of stores applied to a segment value.
-/

/- ### C-string buffer primitives

The parser in gpsdclient.c works on a NUL-terminated `char *` buffer and
mutates it.  We model the buffer as a `List Char`; reading a C string from
position `i` takes characters until the first NUL. -/

/-- Read the character at index `i`; past the end of the modelled buffer the
C buffer holds its terminating NUL. -/
def getC (buf : List Char) (i : Nat) : Char := buf.getD i '\x00'

/-- The C string starting at index `i`: characters up to the first NUL. -/
def cstrFrom (buf : List Char) (i : Nat) : List Char :=
  (buf.drop i).takeWhile (fun c => c ≠ '\x00')

/-- `strchr` on a character list, for a non-NUL needle: index of the first
occurrence of `c`, scanning no further than the first NUL. -/
def strchrList (l : List Char) (c : Char) : Option Nat :=
  match l with
  | [] => none
  | x :: xs =>
    if x = '\x00' then none
    else if x = c then some 0
    else (strchrList xs c).map (fun k => k + 1)

/-- `strchr` from position `i` of the buffer. -/
def strchrFrom (buf : List Char) (i : Nat) (c : Char) : Option Nat :=
  (strchrList (buf.drop i) c).map (fun k => k + i)

theorem strchrList_spec (c : Char) :
    ∀ (l : List Char) (k : Nat), strchrList l c = some k →
      k < l.length ∧ l.getD k '\x00' = c := by
  intro l
  induction l with
  | nil => intro k h; simp [strchrList] at h
  | cons x xs ih =>
    intro k h
    by_cases h0 : x = '\x00'
    · simp [strchrList, h0] at h
    · by_cases hc : x = c
      · subst hc
        simp [strchrList, h0] at h
        subst h
        simp
      · simp [strchrList, h0, hc] at h
        obtain ⟨k0, hk0, rfl⟩ := h
        obtain ⟨h1, h2⟩ := ih k0 hk0
        constructor
        · simpa using h1
        · simpa using h2

theorem strchrFrom_spec (buf : List Char) (i : Nat) (c : Char) (j : Nat)
    (h : strchrFrom buf i c = some j) :
    i ≤ j ∧ j < buf.length ∧ getC buf j = c := by
  simp only [strchrFrom, Option.map_eq_some'] at h
  obtain ⟨k, hk, rfl⟩ := h
  obtain ⟨h1, h2⟩ := strchrList_spec c _ k hk
  refine ⟨Nat.le_add_left i k, ?_, ?_⟩
  · have := List.length_drop i buf ▸ h1
    omega
  · rw [List.getD_eq_getElem?_getD, List.getElem?_drop] at h2
    unfold getC
    rw [List.getD_eq_getElem?_getD]
    rwa [Nat.add_comm i k] at h2

/-- `getC` after an in-place store. -/
theorem getC_set (l : List Char) (j i : Nat) (a : Char) :
    getC (l.set j a) i = if i = j ∧ j < l.length then a else getC l i := by
  unfold getC
  by_cases h : i = j ∧ j < l.length
  · obtain ⟨rfl, hj⟩ := h
    simp [List.getD_eq_getElem?_getD, List.getElem?_set_self, hj,
      List.getElem?_eq_getElem hj]
  · simp only [if_neg h]
    rcases Decidable.em (i = j) with rfl | hne
    · have hj : ¬ i < l.length := fun hlt => h ⟨rfl, hlt⟩
      simp [List.getD_eq_getElem?_getD, List.getElem?_set,
        List.getElem?_eq_none (Nat.le_of_not_lt hj), hj]
    · simp [List.getD_eq_getElem?_getD, List.getElem?_set, Ne.symm hne]

/- ### Endpoint-spec parser (gpsd_source_spec) -/

/-- Modelled from the spec: `DEFAULT_GPSD_PORT` comes from gps.h, which is
not in the tree; the spec calls it the compiled default port and its test
vectors use 2947. -/
def DEFAULT_GPSD_PORT : String := "2947"

/-- A `char *` held in `struct fixsource_t`: either one of the static
string constants the function assigns, or a pointer (index) into the
caller's buffer. -/
inductive CPtr where
  | static (s : String)
  | bufp (i : Nat)
deriving DecidableEq, Repr

/-- Dereference a `CPtr` against the final state of the buffer. -/
def derefPtr (buf : List Char) : CPtr → String
  | .static s => s
  | .bufp i => String.mk (cstrFrom buf i)

/-- The result record of `gpsd_source_spec` (struct fixsource_t), with the
pointer fields already dereferenced against the final buffer. -/
structure fixsource_t where
  server : String
  port : String
  device : Option String
deriving DecidableEq, Repr

/-- `skipto`: start of the colon search — past a leading `[...]` IPv6
literal when both brackets are present, else the start of the buffer. -/
def skiptoIdx (arg : List Char) : Nat :=
  if getC arg 0 = '[' then
    match strchrFrom arg 0 ']' with
    | some r => r
    | none => 0
  else 0

/-- The colon-splitting phase of `gpsd_source_spec`: returns the server
and port pointers, the device pointer (if any) and the buffer after the
in-place NUL stores `*colon1 = '\0'` and `*colon2 = '\0'`. -/
def sourceSplit (arg : List Char) : CPtr × CPtr × Option Nat × List Char :=
  match strchrFrom arg (skiptoIdx arg) ':' with
  | some colon1 =>
    match strchrFrom (arg.set colon1 '\x00') (colon1 + 1) ':' with
    | some colon2 =>
      ((if colon1 ≠ 0 then .bufp 0 else .static "localhost"),
       (if getC (arg.set colon1 '\x00') (colon1 + 1) ≠ '\x00' ∧
           getC (arg.set colon1 '\x00') (colon1 + 1) ≠ ':' then
          .bufp (colon1 + 1)
        else .static DEFAULT_GPSD_PORT),
       (if getC ((arg.set colon1 '\x00').set colon2 '\x00') (colon2 + 1) ≠ '\x00'
        then some (colon2 + 1) else none),
       (arg.set colon1 '\x00').set colon2 '\x00')
    | none =>
      ((if colon1 ≠ 0 then .bufp 0 else .static "localhost"),
       (if getC (arg.set colon1 '\x00') (colon1 + 1) ≠ '\x00' ∧
           getC (arg.set colon1 '\x00') (colon1 + 1) ≠ ':' then
          .bufp (colon1 + 1)
        else .static DEFAULT_GPSD_PORT),
       none,
       arg.set colon1 '\x00')
  | none =>
    if (strchrFrom arg 0 '/').isSome then
      (.static "localhost", .static DEFAULT_GPSD_PORT, some 0, arg)
    else
      (.bufp 0, .static DEFAULT_GPSD_PORT, none, arg)

/-- The bracket-stripping epilogue of `gpsd_source_spec`:
`if (*source->server == '[') { rbrk = strchr(server, ']'); ++server;
if (rbrk) *rbrk = '\0'; }`.  For the static strings the function assigns
("localhost") the guard is never true; the static branch mirrors the same
reads on the string value. -/
def bracketStrip (buf : List Char) : CPtr → CPtr × List Char
  | .static s =>
      if s.toList.head? = some '[' then
        match strchrList s.toList ']' with
        | some r => (.static (String.mk ((s.toList.drop 1).take (r - 1))), buf)
        | none => (.static (String.mk (s.toList.drop 1)), buf)
      else (.static s, buf)
  | .bufp i =>
      if getC buf i = '[' then
        match strchrFrom buf i ']' with
        | some r => (.bufp (i + 1), buf.set r '\x00')
        | none => (.bufp (i + 1), buf)
      else (.bufp i, buf)

/-- `gpsd_source_spec` from src/libgps/gpsdclient.c, for a non-NULL
argument.  The argument buffer is passed as a list of characters (a C
string has no interior NUL); the function returns the parsed
`fixsource_t` and the final state of the caller's buffer, which the C
code mutates in place (`*colon1 = '\0'`, `*colon2 = '\0'`,
`*rbrk = '\0'`).  Pointer fields are dereferenced against the final
buffer, exactly as a C caller reading them after the call would. -/
def gpsd_source_spec (arg : List Char) : fixsource_t × List Char :=
  let step := sourceSplit arg
  let fin := bracketStrip step.2.2.2 step.1
  (⟨derefPtr fin.2 fin.1, derefPtr fin.2 step.2.1,
    step.2.2.1.map (fun i => String.mk (cstrFrom fin.2 i))⟩, fin.2)

/- ### The mutation footprint of the parser -/

/-- `fin` is reachable from `orig` by the parser's in-place stores: the
length is unchanged, and a position that changed held `:` or `]` and now
holds NUL. -/
def mutFrame (orig fin : List Char) : Prop :=
  fin.length = orig.length ∧
  ∀ i, getC fin i ≠ getC orig i →
    (getC orig i = ':' ∨ getC orig i = ']') ∧ getC fin i = '\x00'

theorem mutFrame_refl (s : List Char) : mutFrame s s :=
  ⟨rfl, fun _ h => absurd rfl h⟩

theorem mutFrame_set {s t : List Char} (h : mutFrame s t) (j : Nat)
    (hj : getC t j = ':' ∨ getC t j = ']') :
    mutFrame s (t.set j '\x00') := by
  obtain ⟨hlen, hpt⟩ := h
  constructor
  · simpa using hlen
  · intro i hi
    rw [getC_set] at hi
    by_cases hcase : i = j ∧ j < t.length
    · rw [getC_set, if_pos hcase]
      refine ⟨?_, rfl⟩
      by_cases hsame : getC t i = getC s i
      · rw [← hsame, hcase.1]; exact hj
      · exact (hpt i hsame).1
    · rw [if_neg hcase] at hi
      rw [getC_set, if_neg hcase]
      exact hpt i hi

theorem sourceSplit_mutFrame (arg : List Char) :
    mutFrame arg (sourceSplit arg).2.2.2 := by
  unfold sourceSplit
  cases h1 : strchrFrom arg (skiptoIdx arg) ':' with
  | none =>
    by_cases hs : (strchrFrom arg 0 '/').isSome <;> simp [hs, mutFrame_refl]
  | some colon1 =>
    dsimp only
    obtain ⟨-, -, hc1⟩ := strchrFrom_spec _ _ _ _ h1
    have hf1 : mutFrame arg (arg.set colon1 '\x00') :=
      mutFrame_set (mutFrame_refl arg) colon1 (Or.inl hc1)
    cases h2 : strchrFrom (arg.set colon1 '\x00') (colon1 + 1) ':' with
    | none => exact hf1
    | some colon2 =>
      obtain ⟨-, -, hc2⟩ := strchrFrom_spec _ _ _ _ h2
      exact mutFrame_set hf1 colon2 (Or.inl hc2)

theorem bracketStrip_mutFrame {s t : List Char} (h : mutFrame s t) (p : CPtr) :
    mutFrame s (bracketStrip t p).2 := by
  cases p with
  | static str =>
    simp only [bracketStrip]
    split
    · split <;> exact h
    · exact h
  | bufp i =>
    simp only [bracketStrip]
    split
    · split
      next r hr =>
        obtain ⟨-, -, hcr⟩ := strchrFrom_spec _ _ _ _ hr
        exact mutFrame_set h r (Or.inr hcr)
      next hr => exact h
    · exact h

theorem gpsd_source_spec_buffer (arg : List Char) :
    (gpsd_source_spec arg).2 =
      (bracketStrip (sourceSplit arg).2.2.2 (sourceSplit arg).1).2 := rfl

theorem gpsd_source_spec_buffer_mutFrame (arg : List Char) :
    mutFrame arg (gpsd_source_spec arg).2 := by
  rw [gpsd_source_spec_buffer]
  exact bracketStrip_mutFrame (sourceSplit_mutFrame arg) _

/- ### Export-method registry (gpsdclient.c) -/

/-- `struct exportmethod_t`: a registry entry `{name, magic, description}`;
the `magic` cookie is an opaque pointer in C, modelled as an optional tag
(NULL for the sockets entry). -/
structure exportmethod_t where
  name : String
  magic : Option String
  description : String
deriving DecidableEq, Repr

/-- The static `exportmethods[]` table of src/libgps/gpsdclient.c, one
entry per compiled-in export channel, in declaration order (dbus, shm,
sockets), each entry present when its build flag is. -/
def exportmethods (dbusExport shmExport socketExport : Bool) :
    List exportmethod_t :=
  (if dbusExport then
    [{name := "dbus", magic := some "GPSD_DBUS_EXPORT",
      description := "DBUS broadcast"}] else []) ++
  (if shmExport then
    [{name := "shm", magic := some "GPSD_SHARED_MEMORY",
      description := "shared memory"}] else []) ++
  (if socketExport then
    [{name := "sockets", magic := none,
      description := "JSON via sockets"}] else [])

/-- `export_lookup` from src/libgps/gpsdclient.c: linear scan of the
table, overwriting the candidate on every name match, so the last match
wins. -/
def export_lookup (methods : List exportmethod_t) (name : String) :
    Option exportmethod_t :=
  methods.foldl (fun method mp => if mp.name = name then some mp else method)
    none

/-- `export_default` from src/libgps/gpsdclient.c: the first table entry
when the table is nonempty, NULL otherwise. -/
def export_default (methods : List exportmethod_t) : Option exportmethod_t :=
  if 0 < methods.length then methods.head? else none

theorem export_lookup_eq_filter_getLast (l : List exportmethod_t) (n : String) :
    export_lookup l n = (l.filter (fun m => m.name = n)).getLast? := by
  induction l using List.reverseRecOn with
  | nil => rfl
  | append_singleton xs a ih =>
    unfold export_lookup at ih ⊢
    rw [List.foldl_append, List.foldl_cons, List.foldl_nil, ih,
      List.filter_append]
    by_cases ha : a.name = n
    · simp [ha, List.getLast?_concat]
    · simp [ha]

theorem export_default_eq_head (l : List exportmethod_t) :
    export_default l = l.head? := by
  cases l <;> simp [export_default]

/- ### Control tool (gpsdctl.c) -/

/-- `DEFAULT_GPSD_TEST_SOCKET` from src/clients/gpsdctl.c line 23. -/
def DEFAULT_GPSD_TEST_SOCKET : String := "/tmp/gpsd.sock"

/-- Externally visible side effects of one `gpsd_control` run, in program
order: a connect attempt on the control socket, a `system()` launch of
the daemon, the stat/chmod pair on the device node, writes and bounded
reads on the connected socket, and the final close. -/
inductive CtlEvent where
  | connectAttempt (path : String)
  | launch (cmd : String)
  | statCall (path : String)
  | chmodCall (path : String) (mode : Nat)
  | sockWrite (bytes : String)
  | sockRead (cap : Nat)
  | sockClose
deriving DecidableEq, Repr

/-- Outcomes of the operating-system calls `gpsd_control` makes, fixed up
front: the two globals set by `main`, the results of the first
`access`/connect probe, of the `system()` launch, of the post-launch
re-probe, of `write`, and of `stat` (whose successful `st_mode` is
`statMode`; `junkMode` is whatever the uninitialized `struct stat` on the
stack holds when `stat` fails). -/
structure CtlEnv where
  control_socket : String
  gpsd_options : String
  socketExists : Bool
  connectOk : Bool
  systemOk : Bool
  socketExistsAfter : Bool
  connectOkAfter : Bool
  writeRet : Int
  statRet : Int
  statMode : Nat
  junkMode : Nat
deriving DecidableEq, Repr

/-- `snprintf` into the 512-byte `buf` of `gpsd_control`: at most 511
characters are kept. -/
def snprintf512 (s : String) : String := String.mk (s.toList.take 511)

def S_IRUSR : Nat := 0o400
def S_IWUSR : Nat := 0o200
def S_IRGRP : Nat := 0o40
def S_IWGRP : Nat := 0o20

/-- The mode argument of the chmod in the add path:
`sb.st_mode | S_IRUSR|S_IWUSR|S_IRGRP|S_IWGRP`, where `sb.st_mode` is the
stat result when stat succeeded and stack garbage when it failed. -/
def chmodMode (env : CtlEnv) : Nat :=
  (if env.statRet = 0 then env.statMode else env.junkMode) |||
    (S_IRUSR ||| S_IWUSR ||| S_IRGRP ||| S_IWGRP)

/-- The stat/chmod pair guarding the add command:
`if (stat(argument, &sb) != 1) chmod(argument, sb.st_mode | ...)`. -/
def statChmodEvents (env : CtlEnv) (argument : String) : List CtlEvent :=
  [CtlEvent.statCall argument] ++
    (if env.statRet ≠ 1 then [CtlEvent.chmodCall argument (chmodMode env)]
     else [])

/-- The command phase of `gpsd_control` (lines 64-89), entered with a
connected socket: `add` runs stat/chmod then writes `+argument\r\n`,
`remove` writes `-argument\r\n`, both read at most 12 bytes of
acknowledgement; any other action only logs and sets status to -1; all
paths close the socket. The status of add/remove is the return of
`write`. -/
def commandPhase (env : CtlEnv) (action argument : String)
    (evs : List CtlEvent) : Int × List CtlEvent :=
  if action = "add" then
    (env.writeRet,
     evs ++ statChmodEvents env argument ++
       [CtlEvent.sockWrite (snprintf512 ("+" ++ argument ++ "\r\n")),
        CtlEvent.sockRead 12, CtlEvent.sockClose])
  else if action = "remove" then
    (env.writeRet,
     evs ++
       [CtlEvent.sockWrite (snprintf512 ("-" ++ argument ++ "\r\n")),
        CtlEvent.sockRead 12, CtlEvent.sockClose])
  else
    (-1, evs ++ [CtlEvent.sockClose])

/-- `gpsd_control` from src/clients/gpsdctl.c: probe the control socket
(`access` then connect, short-circuit); on probe failure and action
`add`, launch `gpsd <options> -F <control_socket>` via `system()`,
returning -1 when the launch fails, then re-check the socket and retry
the connect once; with no connection, return -1; otherwise run the
command phase.  Returns the status and the ordered event trace. -/
def gpsd_control (env : CtlEnv) (action argument : String) :
    Int × List CtlEvent :=
  if env.socketExists && env.connectOk then
    commandPhase env action argument
      [CtlEvent.connectAttempt env.control_socket]
  else if action = "add" then
    (if env.systemOk = false then
      (-1,
       (if env.socketExists then
          [CtlEvent.connectAttempt env.control_socket] else []) ++
         [CtlEvent.launch (snprintf512
            ("gpsd " ++ env.gpsd_options ++ " -F " ++ env.control_socket))])
    else if env.socketExistsAfter && env.connectOkAfter then
      commandPhase env action argument
        ((if env.socketExists then
            [CtlEvent.connectAttempt env.control_socket] else []) ++
          [CtlEvent.launch (snprintf512
             ("gpsd " ++ env.gpsd_options ++ " -F " ++ env.control_socket)),
           CtlEvent.connectAttempt env.control_socket])
    else
      (-1,
       (if env.socketExists then
          [CtlEvent.connectAttempt env.control_socket] else []) ++
         [CtlEvent.launch (snprintf512
            ("gpsd " ++ env.gpsd_options ++ " -F " ++ env.control_socket))] ++
         (if env.socketExistsAfter then
            [CtlEvent.connectAttempt env.control_socket] else [])))
  else
    (-1,
     if env.socketExists then
       [CtlEvent.connectAttempt env.control_socket] else [])

/-- The control-socket resolution in `main` (lines 118-121): start from
the compiled-in `DEFAULT_GPSD_SOCKET` (whose value gpsd_config.h
supplies, abstracted here as a parameter), override with `GPSD_SOCKET`
when set, else with the test socket when the effective uid is nonzero. -/
def resolve_control_socket (defaultGpsdSocket : String)
    (sockenv : Option String) (euid : Nat) : String :=
  match sockenv with
  | some s => s
  | none =>
    if euid ≠ 0 then DEFAULT_GPSD_TEST_SOCKET else defaultGpsdSocket

def isLaunch : CtlEvent → Bool
  | .launch _ => true
  | _ => false

def isSockWrite : CtlEvent → Bool
  | .sockWrite _ => true
  | _ => false

def isConnect : CtlEvent → Bool
  | .connectAttempt _ => true
  | _ => false

def isChmod : CtlEvent → Bool
  | .chmodCall _ _ => true
  | _ => false

/- ### Shared-memory publisher (shmexport.c) -/

/-- Modelled from the spec: `struct gps_data_t` (gps.h is not in the
tree).  The spec treats the daemon snapshot as an opaque plain-data
payload; the publisher additionally overwrites its `gps_fd` member, so
the model keeps that field plus an opaque remainder standing for every
other field. -/
structure gps_data_t where
  gps_fd : Int
  rest : Nat
deriving DecidableEq, Repr

/-- Modelled from the spec: `SHM_PSEUDO_FD` (libgps.h is not in the
tree), the placeholder descriptor stored into the published snapshot in
place of the daemon's real descriptor; only its constancy matters
here. -/
def SHM_PSEUDO_FD : Int := -1

/-- Modelled from the spec: `struct shmexport_t` (libgps.h is not in the
tree).  The spec lays the broadcast segment out as three fields in fixed
order — lead marker, payload, trail marker — and has the subscriber read
them in that declaration order; so `bookend1` is the lead (first) field
and `bookend2` the trail (last) field. -/
structure shmexport_t where
  bookend1 : Int
  gpsdata : gps_data_t
  bookend2 : Int
deriving DecidableEq, Repr

/-- One store instruction of the publisher, named by the segment field it
writes. -/
inductive ShmStore where
  | storeBookend2 (v : Int)
  | storePayload (d : gps_data_t)
  | storeGpsFd (v : Int)
  | storeBookend1 (v : Int)
deriving DecidableEq, Repr

/-- Does the store touch the lead marker (`bookend1`, first in layout)? -/
def ShmStore.touchesLead : ShmStore → Bool
  | .storeBookend1 _ => true
  | _ => false

/-- Does the store touch the trail marker (`bookend2`, last in layout)? -/
def ShmStore.touchesTrail : ShmStore → Bool
  | .storeBookend2 _ => true
  | _ => false

/-- Effect of one store on the segment. -/
def applyStore (s : shmexport_t) : ShmStore → shmexport_t
  | .storeBookend2 v => {s with bookend2 := v}
  | .storePayload d => {s with gpsdata := d}
  | .storeGpsFd v => {s with gpsdata := {s.gpsdata with gps_fd := v}}
  | .storeBookend1 v => {s with bookend1 := v}

/-- 32-bit two's-complement wraparound of the `static int tick`
counter. -/
def wrap32 (x : Int) : Int := (x + 2 ^ 31) % 2 ^ 32 - 2 ^ 31

/-- The ordered store sequence of one publish, lines 115-125 of
src/gpsd/shmexport.c: `bookend2 = tick`, the whole-payload copy, the
`gps_fd = SHM_PSEUDO_FD` overwrite, `bookend1 = tick`, with a memory
barrier between consecutive stores. -/
def shm_update_trace (tick : Int) (gpsdata : gps_data_t) : List ShmStore :=
  [ShmStore.storeBookend2 tick,
   ShmStore.storePayload gpsdata,
   ShmStore.storeGpsFd SHM_PSEUDO_FD,
   ShmStore.storeBookend1 tick]

/-- `shm_update` from src/gpsd/shmexport.c: with no attached segment
(`context->shmexport == NULL`) nothing happens; otherwise the static tick
is incremented and the publish's stores are issued in program order.
Returns the resulting segment, the new tick, and the store trace. -/
def shm_update (shmexport : Option shmexport_t) (tick : Int)
    (gpsdata : gps_data_t) : Option shmexport_t × Int × List ShmStore :=
  match shmexport with
  | none => (none, tick, [])
  | some seg =>
    (some ((shm_update_trace (wrap32 (tick + 1)) gpsdata).foldl applyStore seg),
     wrap32 (tick + 1),
     shm_update_trace (wrap32 (tick + 1)) gpsdata)

/- ### Helper lemmas for the control-tool traces -/

theorem snprintf512_short (s : String) (h : s.length ≤ 511) :
    snprintf512 s = s := by
  unfold snprintf512
  have h2 : s.toList.length ≤ 511 := h
  rw [List.take_of_length_le h2]
  rfl

theorem statChmodEvents_filter_isSockWrite (env : CtlEnv) (argument : String) :
    (statChmodEvents env argument).filter isSockWrite = [] := by
  by_cases hs : env.statRet ≠ 1 <;> simp [statChmodEvents, hs, isSockWrite]

theorem statChmodEvents_filter_isLaunch (env : CtlEnv) (argument : String) :
    (statChmodEvents env argument).filter isLaunch = [] := by
  by_cases hs : env.statRet ≠ 1 <;> simp [statChmodEvents, hs, isLaunch]

theorem statChmodEvents_filter_isConnect (env : CtlEnv) (argument : String) :
    (statChmodEvents env argument).filter isConnect = [] := by
  by_cases hs : env.statRet ≠ 1 <;> simp [statChmodEvents, hs, isConnect]

theorem commandPhase_filter_isLaunch (env : CtlEnv) (action argument : String)
    (evs : List CtlEvent) :
    ((commandPhase env action argument evs).2.filter isLaunch) =
      evs.filter isLaunch := by
  unfold commandPhase
  by_cases ha : action = "add"
  · simp [ha, List.filter_append, statChmodEvents_filter_isLaunch, isLaunch]
  · by_cases hr : action = "remove" <;>
      simp [ha, hr, List.filter_append, isLaunch]

theorem commandPhase_filter_isConnect (env : CtlEnv) (action argument : String)
    (evs : List CtlEvent) :
    ((commandPhase env action argument evs).2.filter isConnect) =
      evs.filter isConnect := by
  unfold commandPhase
  by_cases ha : action = "add"
  · simp [ha, List.filter_append, statChmodEvents_filter_isConnect, isConnect]
  · by_cases hr : action = "remove" <;>
      simp [ha, hr, List.filter_append, isConnect]

/-- A concrete environment whose probe succeeds, used by witnesses. -/
def reachableEnv : CtlEnv :=
  ⟨"/var/run/gpsd.sock", "-n", true, true, true, true, true, 15, 0, 0o660,
   0o123⟩

/-- A concrete environment with no reachable socket, used by witnesses. -/
def unreachableEnv : CtlEnv :=
  ⟨"/var/run/gpsd.sock", "-n", false, false, true, true, true, 15, 0, 0o660,
   0o123⟩

/- ## Claim theorems -/

/-- C5: the endpoint parser maps "localhost" to {localhost, default port,
no device}; "localhost:2947:/dev/ttyUSB0" to {localhost, 2947,
/dev/ttyUSB0}; "[fe80::1]:2947" to {fe80::1, 2947, no device};
"/dev/ttyUSB0" to {default server, default port, /dev/ttyUSB0}; and
"host::" to {host, default port, no device}; trailing colons with nothing
after them never clear defaults, and a bracketed server loses its
brackets even with no colon after it ("[fe80::1]"). -/
theorem gpsd_source_spec_vectors :
    (gpsd_source_spec "localhost".toList).1 =
      ⟨"localhost", DEFAULT_GPSD_PORT, none⟩ ∧
    (gpsd_source_spec "localhost:2947:/dev/ttyUSB0".toList).1 =
      ⟨"localhost", "2947", some "/dev/ttyUSB0"⟩ ∧
    (gpsd_source_spec "[fe80::1]:2947".toList).1 =
      ⟨"fe80::1", "2947", none⟩ ∧
    (gpsd_source_spec "/dev/ttyUSB0".toList).1 =
      ⟨"localhost", DEFAULT_GPSD_PORT, some "/dev/ttyUSB0"⟩ ∧
    (gpsd_source_spec "host::".toList).1 =
      ⟨"host", DEFAULT_GPSD_PORT, none⟩ ∧
    (gpsd_source_spec "[fe80::1]".toList).1 =
      ⟨"fe80::1", DEFAULT_GPSD_PORT, none⟩ :=
  ⟨by decide, by decide, by decide, by decide, by decide, by decide⟩

/-- C4 counterexample: parsing the buffer "a:1" overwrites its ':' with a
NUL in place, so the buffer differs after the call, and re-parsing the
mutated buffer returns a different port — refuting both "does not mutate
its input" and the operational reading of "repeated calls with the same
string". -/
theorem gpsd_source_spec_mutates :
    ((gpsd_source_spec ("a:1".toList)).2 ≠ "a:1".toList) ∧
    ((gpsd_source_spec ((gpsd_source_spec ("a:1".toList)).2)).1 ≠
       (gpsd_source_spec ("a:1".toList)).1) := by
  exact ⟨by decide, by decide⟩

/-- C4 (amended): the parse is deterministic in the buffer contents, but
it mutates its input buffer in place; the mutation is exactly bounded:
the buffer length is preserved and any position that changed held one of
the separators ':' or ']' and now holds NUL.  (A repeated call on the
mutated buffer may therefore differ from the first call's result.) -/
theorem gpsd_source_spec_mutation_frame (arg : List Char) :
    ((gpsd_source_spec arg).2.length = arg.length) ∧
    (∀ i : Nat, getC (gpsd_source_spec arg).2 i ≠ getC arg i →
       (getC arg i = ':' ∨ getC arg i = ']') ∧
       getC (gpsd_source_spec arg).2 i = '\x00') :=
  gpsd_source_spec_buffer_mutFrame arg

/-- C4 witness: the frame theorem applied at the concrete buffer "a:1"
and position 1, where the separator was overwritten. -/
theorem gpsd_source_spec_mutation_frame_witness :
    (getC (gpsd_source_spec ("a:1".toList)).2 1 ≠ getC ("a:1".toList) 1) ∧
    ((getC ("a:1".toList) 1 = ':' ∨ getC ("a:1".toList) 1 = ']') ∧
     getC (gpsd_source_spec ("a:1".toList)).2 1 = '\x00') :=
  ⟨by decide, (gpsd_source_spec_mutation_frame ("a:1".toList)).2 1 (by decide)⟩

/-- C7: `export_default` returns the first-declared descriptor and none on
an empty registry (no crash); `export_lookup` scans linearly keeping the
last name match, so when two entries share a name the later-declared one
is returned — exhibited on a registry with two "sockets" entries. -/
theorem export_registry_deterministic :
    (∀ l : List exportmethod_t, export_default l = l.head?) ∧
    (export_default ([] : List exportmethod_t) = none) ∧
    (∀ (l : List exportmethod_t) (n : String),
       export_lookup l n = (l.filter (fun m => m.name = n)).getLast?) ∧
    (export_lookup
        [⟨"sockets", none, "JSON via sockets"⟩,
         ⟨"sockets", none, "second sockets entry"⟩] "sockets" =
       some ⟨"sockets", none, "second sockets entry"⟩) ∧
    (export_default (exportmethods true true true) =
       some ⟨"dbus", some "GPSD_DBUS_EXPORT", "DBUS broadcast"⟩) :=
  ⟨export_default_eq_head, rfl, export_lookup_eq_filter_getLast,
   by decide, by decide⟩

/-- C10: with GPSD_SOCKET unset and a nonzero effective uid the control
socket is "/tmp/gpsd.sock" instead of the compiled-in default; a set
GPSD_SOCKET overrides both; with uid 0 and no override the compiled-in
default stays. -/
theorem resolve_control_socket_spec (dflt : String) (euid : Nat)
    (h : euid ≠ 0) :
    resolve_control_socket dflt none euid = DEFAULT_GPSD_TEST_SOCKET ∧
    DEFAULT_GPSD_TEST_SOCKET = "/tmp/gpsd.sock" ∧
    (∀ (v : String) (euid2 : Nat),
       resolve_control_socket dflt (some v) euid2 = v) ∧
    resolve_control_socket dflt none 0 = dflt := by
  refine ⟨?_, rfl, fun v euid2 => rfl, ?_⟩
  · simp [resolve_control_socket, h]
  · simp [resolve_control_socket]

/-- C10 witness: the resolution theorem at uid 1000 and a concrete
compiled-in default. -/
theorem resolve_control_socket_spec_witness :
    (1000 ≠ 0) ∧
    (resolve_control_socket "/run/gpsd.sock" none 1000 =
       DEFAULT_GPSD_TEST_SOCKET ∧
     DEFAULT_GPSD_TEST_SOCKET = "/tmp/gpsd.sock" ∧
     (∀ (v : String) (euid2 : Nat),
        resolve_control_socket "/run/gpsd.sock" (some v) euid2 = v) ∧
     resolve_control_socket "/run/gpsd.sock" none 0 = "/run/gpsd.sock") :=
  ⟨by decide, resolve_control_socket_spec "/run/gpsd.sock" 1000 (by decide)⟩

/-- C1 counterexample: at a concrete attached publish, the publisher's
FIRST store writes the trail marker (`bookend2`, the last-laid-out field)
and its LAST store writes the lead marker (`bookend1`, the first-laid-out
field) — refuting the claimed order (lead marker first, payload, trail
marker last). -/
theorem shm_update_first_store_is_trail :
    ¬ ((shm_update (some ⟨0, ⟨3, 9⟩, 0⟩) 0 ⟨3, 9⟩).2.2.head?.map
         ShmStore.touchesLead = some true) ∧
    ((shm_update (some ⟨0, ⟨3, 9⟩, 0⟩) 0 ⟨3, 9⟩).2.2.head?.map
         ShmStore.touchesTrail = some true) ∧
    ((shm_update (some ⟨0, ⟨3, 9⟩, 0⟩) 0 ⟨3, 9⟩).2.2.getLast?.map
         ShmStore.touchesLead = some true) := by
  exact ⟨by decide, by decide, by decide⟩

/-- C1 (amended): on every publish with an attached segment the publisher
increments its process-local tick and then stores, in program order:
`trail_marker (bookend2) = tick` FIRST, then the input state copied into
the payload in its entirety, then the `gps_fd` overwrite, then
`lead_marker (bookend1) = tick` LAST — the reverse bracketing of the
claim — and after the publish completes both markers equal the new
tick. -/
theorem shm_update_store_order (seg : shmexport_t) (tick : Int)
    (d : gps_data_t) :
    (shm_update (some seg) tick d).2.1 = wrap32 (tick + 1) ∧
    (shm_update (some seg) tick d).2.2 =
      [ShmStore.storeBookend2 (wrap32 (tick + 1)),
       ShmStore.storePayload d,
       ShmStore.storeGpsFd SHM_PSEUDO_FD,
       ShmStore.storeBookend1 (wrap32 (tick + 1))] ∧
    ((shm_update (some seg) tick d).2.2.head?.map ShmStore.touchesTrail =
       some true) ∧
    ((shm_update (some seg) tick d).2.2.getLast?.map ShmStore.touchesLead =
       some true) ∧
    (shm_update (some seg) tick d).1 =
      some ⟨wrap32 (tick + 1), ⟨SHM_PSEUDO_FD, d.rest⟩, wrap32 (tick + 1)⟩ :=
  ⟨rfl, rfl, rfl, rfl, rfl⟩

/-- C8: after every publish with an attached segment the published payload
equals the input `gps_data_t` in every field except `gps_fd`, which holds
the constant `SHM_PSEUDO_FD`; the overwrite is issued before the final
marker store; and the input's real descriptor value has no effect on the
published segment. -/
theorem shm_update_payload_fd (seg : shmexport_t) (tick : Int)
    (d : gps_data_t) :
    (∃ segF, (shm_update (some seg) tick d).1 = some segF ∧
       segF.gpsdata.rest = d.rest ∧
       segF.gpsdata.gps_fd = SHM_PSEUDO_FD ∧
       segF.gpsdata = {d with gps_fd := SHM_PSEUDO_FD}) ∧
    (∀ fd : Int,
       (shm_update (some seg) tick {d with gps_fd := fd}).1 =
         (shm_update (some seg) tick d).1) ∧
    (∃ pre, (shm_update (some seg) tick d).2.2 =
       pre ++ [ShmStore.storeBookend1 (wrap32 (tick + 1))] ∧
       ShmStore.storeGpsFd SHM_PSEUDO_FD ∈ pre) :=
  ⟨⟨⟨wrap32 (tick + 1), ⟨SHM_PSEUDO_FD, d.rest⟩, wrap32 (tick + 1)⟩,
     rfl, rfl, rfl, rfl⟩,
   fun fd => rfl,
   ⟨[ShmStore.storeBookend2 (wrap32 (tick + 1)),
     ShmStore.storePayload d,
     ShmStore.storeGpsFd SHM_PSEUDO_FD], rfl, by simp⟩⟩

/-- C2 counterexample: with a reachable control socket and the unknown
action "reset", the tool makes a connect attempt on the control socket
before it ever inspects the action, refuting "no connect attempt is made
... for an unknown action". -/
theorem gpsd_control_unknown_connects :
    CtlEvent.connectAttempt "/var/run/gpsd.sock" ∈
      (gpsd_control reachableEnv "reset" "/dev/ttyUSB0").2 := by
  decide

/-- C2 (amended): for every action other than "add" and "remove" the tool
writes no bytes on the control socket and the command fails with -1; the
probe connect, however, runs before the action is inspected, and the
distinct unknown-action error is only raised on an established
connection. -/
theorem gpsd_control_unknown_action (env : CtlEnv) (action argument : String)
    (ha : action ≠ "add") (hr : action ≠ "remove") :
    (gpsd_control env action argument).2.filter isSockWrite = [] ∧
    (gpsd_control env action argument).1 = -1 := by
  by_cases hse : env.socketExists = true <;>
    by_cases hco : env.connectOk = true <;>
      constructor <;>
        simp [gpsd_control, commandPhase, ha, hr, hse, hco, isSockWrite,
          List.filter_append]

/-- C2 witness: the amended theorem at the reachable environment and the
concrete unknown action "reset". -/
theorem gpsd_control_unknown_action_witness :
    ("reset" ≠ "add") ∧ ("reset" ≠ "remove") ∧
    ((gpsd_control reachableEnv "reset" "/dev/ttyUSB0").2.filter isSockWrite
        = [] ∧
     (gpsd_control reachableEnv "reset" "/dev/ttyUSB0").1 = -1) :=
  ⟨by decide, by decide,
   gpsd_control_unknown_action reachableEnv "reset" "/dev/ttyUSB0"
     (by decide) (by decide)⟩

/-- C3: with a reachable daemon, `add` writes to the socket exactly the
bytes "+<path>\r\n" and `remove` exactly "-<path>\r\n" (no other write
event occurs in the run), and the write is followed by one bounded
12-byte acknowledgement read and the close of the connection. -/
theorem gpsd_control_framing (env : CtlEnv) (argument : String)
    (hs : env.socketExists = true) (hc : env.connectOk = true)
    (hlen : argument.length ≤ 500) :
    (∃ pre, (gpsd_control env "add" argument).2 =
        pre ++ [CtlEvent.sockWrite ("+" ++ argument ++ "\r\n"),
                CtlEvent.sockRead 12, CtlEvent.sockClose] ∧
        pre.filter isSockWrite = []) ∧
    (∃ pre, (gpsd_control env "remove" argument).2 =
        pre ++ [CtlEvent.sockWrite ("-" ++ argument ++ "\r\n"),
                CtlEvent.sockRead 12, CtlEvent.sockClose] ∧
        pre.filter isSockWrite = []) := by
  have hplus : ("+" : String).length = 1 := rfl
  have hminus : ("-" : String).length = 1 := rfl
  have hcrlf : ("\r\n" : String).length = 2 := rfl
  have hadd : snprintf512 ("+" ++ argument ++ "\r\n") =
      "+" ++ argument ++ "\r\n" := by
    apply snprintf512_short
    simp only [String.length_append, hplus, hcrlf]
    omega
  have hrem : snprintf512 ("-" ++ argument ++ "\r\n") =
      "-" ++ argument ++ "\r\n" := by
    apply snprintf512_short
    simp only [String.length_append, hminus, hcrlf]
    omega
  have hp : (env.socketExists && env.connectOk) = true := by
    simp [hs, hc]
  constructor
  · refine ⟨CtlEvent.connectAttempt env.control_socket ::
      statChmodEvents env argument, ?_, ?_⟩
    · simp [gpsd_control, commandPhase, hp, hadd]
    · simp [isSockWrite, statChmodEvents_filter_isSockWrite]
  · refine ⟨[CtlEvent.connectAttempt env.control_socket], ?_, ?_⟩
    · simp [gpsd_control, commandPhase, hp, hrem]
    · simp [isSockWrite]

/-- C3 witness: the framing theorem at the reachable environment and the
concrete path /dev/ttyUSB0. -/
theorem gpsd_control_framing_witness :
    (reachableEnv.socketExists = true) ∧ (reachableEnv.connectOk = true) ∧
    (("/dev/ttyUSB0" : String).length ≤ 500) ∧
    ((∃ pre, (gpsd_control reachableEnv "add" "/dev/ttyUSB0").2 =
        pre ++ [CtlEvent.sockWrite ("+" ++ "/dev/ttyUSB0" ++ "\r\n"),
                CtlEvent.sockRead 12, CtlEvent.sockClose] ∧
        pre.filter isSockWrite = []) ∧
     (∃ pre, (gpsd_control reachableEnv "remove" "/dev/ttyUSB0").2 =
        pre ++ [CtlEvent.sockWrite ("-" ++ "/dev/ttyUSB0" ++ "\r\n"),
                CtlEvent.sockRead 12, CtlEvent.sockClose] ∧
        pre.filter isSockWrite = [])) :=
  ⟨rfl, rfl, by decide,
   gpsd_control_framing reachableEnv "/dev/ttyUSB0" rfl rfl (by decide)⟩

theorem gpsd_control_filter_isLaunch_probeOk (env : CtlEnv)
    (action argument : String)
    (hp : (env.socketExists && env.connectOk) = true) :
    (gpsd_control env action argument).2.filter isLaunch = [] := by
  simp [gpsd_control, hp, commandPhase_filter_isLaunch, isLaunch]

theorem gpsd_control_add_launch_trace (env : CtlEnv) (argument : String)
    (hp : (env.socketExists && env.connectOk) = false) :
    (gpsd_control env "add" argument).2.filter isLaunch =
      [CtlEvent.launch (snprintf512
         ("gpsd " ++ env.gpsd_options ++ " -F " ++ env.control_socket))] := by
  cases hso : env.systemOk
  · simp [gpsd_control, hp, hso, isLaunch, List.filter_append,
      apply_ite (List.filter isLaunch)]
  · cases hsea : env.socketExistsAfter <;> cases hcoa : env.connectOkAfter <;>
      simp [gpsd_control, hp, hso, hsea, hcoa, isLaunch, List.filter_append,
        commandPhase_filter_isLaunch, apply_ite (List.filter isLaunch)]

theorem gpsd_control_add_fail_status (env : CtlEnv) (argument : String)
    (hp : (env.socketExists && env.connectOk) = false) :
    (env.systemOk = false → (gpsd_control env "add" argument).1 = -1) ∧
    (env.systemOk = true → env.socketExistsAfter = false →
       (gpsd_control env "add" argument).1 = -1) := by
  constructor
  · intro hso
    simp [gpsd_control, hp, hso]
  · intro hso hsea
    simp [gpsd_control, hp, hso, hsea]

theorem gpsd_control_add_connect_count (env : CtlEnv) (argument : String)
    (hp : (env.socketExists && env.connectOk) = false) :
    ((gpsd_control env "add" argument).2.filter isConnect).length =
      (if env.socketExists = true then 1 else 0) +
      (if (env.systemOk && env.socketExistsAfter) = true then 1 else 0) := by
  cases hse : env.socketExists <;> cases hco : env.connectOk <;>
    cases hso : env.systemOk <;> cases hsea : env.socketExistsAfter <;>
      cases hcoa : env.connectOkAfter <;>
        simp_all [gpsd_control, isConnect, List.filter_append,
          commandPhase_filter_isConnect, apply_ite (List.filter isConnect)]

theorem gpsd_control_other_fail (env : CtlEnv) (action argument : String)
    (hp : (env.socketExists && env.connectOk) = false) (ha : action ≠ "add") :
    (gpsd_control env action argument).2.filter isLaunch = [] ∧
    (gpsd_control env action argument).1 = -1 := by
  constructor <;>
    simp [gpsd_control, hp, ha, isLaunch, apply_ite (List.filter isLaunch)]

/-- C6: the daemon is launched at most once per run; a launch happens only
for action "add" after a failed probe; the launch command carries the
configured extra options and `-F <control_socket>`, so the daemon would
create exactly that control-socket path; after the launch the probe is
retried exactly once (the connect is retried exactly when the socket
re-check finds it); the run fails when the launch fails or the socket
still does not appear; for any other action no launch is attempted and
the run fails. -/
theorem gpsd_control_launch_once (env : CtlEnv) (action argument : String) :
    (((gpsd_control env action argument).2.filter isLaunch).length ≤ 1) ∧
    ((gpsd_control env action argument).2.filter isLaunch ≠ [] →
       action = "add" ∧ (env.socketExists && env.connectOk) = false) ∧
    ((env.socketExists && env.connectOk) = false →
       (action ≠ "add" →
          (gpsd_control env action argument).2.filter isLaunch = [] ∧
          (gpsd_control env action argument).1 = -1) ∧
       ((gpsd_control env "add" argument).2.filter isLaunch =
          [CtlEvent.launch (snprintf512
             ("gpsd " ++ env.gpsd_options ++ " -F " ++
               env.control_socket))]) ∧
       (env.systemOk = false → (gpsd_control env "add" argument).1 = -1) ∧
       (env.systemOk = true → env.socketExistsAfter = false →
          (gpsd_control env "add" argument).1 = -1) ∧
       (((gpsd_control env "add" argument).2.filter isConnect).length =
          (if env.socketExists = true then 1 else 0) +
          (if (env.systemOk && env.socketExistsAfter) = true then 1
           else 0))) := by
  refine ⟨?_, ?_, fun hp => ⟨fun ha => gpsd_control_other_fail _ _ _ hp ha,
    gpsd_control_add_launch_trace _ _ hp,
    (gpsd_control_add_fail_status _ _ hp).1,
    (gpsd_control_add_fail_status _ _ hp).2,
    gpsd_control_add_connect_count _ _ hp⟩⟩
  · by_cases hp : (env.socketExists && env.connectOk) = true
    · simp [gpsd_control_filter_isLaunch_probeOk env action argument hp]
    · have hp2 : (env.socketExists && env.connectOk) = false := by
        revert hp
        cases env.socketExists && env.connectOk <;> simp
      by_cases ha : action = "add"
      · subst ha
        simp [gpsd_control_add_launch_trace env argument hp2]
      · simp [(gpsd_control_other_fail env action argument hp2 ha).1]
  · intro hne
    by_cases hp : (env.socketExists && env.connectOk) = true
    · exact absurd (gpsd_control_filter_isLaunch_probeOk env action argument
        hp) hne
    · have hp2 : (env.socketExists && env.connectOk) = false := by
        revert hp
        cases env.socketExists && env.connectOk <;> simp
      by_cases ha : action = "add"
      · exact ⟨ha, hp2⟩
      · exact absurd (gpsd_control_other_fail env action argument hp2 ha).1
          hne

/-- C6 witness: with no reachable socket, the add run of the launch
theorem at a concrete environment issues exactly one launch carrying the
configured options and socket path. -/
theorem gpsd_control_launch_once_witness :
    ((unreachableEnv.socketExists && unreachableEnv.connectOk) = false) ∧
    (gpsd_control unreachableEnv "add" "/dev/ttyUSB0").2.filter isLaunch =
      [CtlEvent.launch (snprintf512
         ("gpsd " ++ unreachableEnv.gpsd_options ++ " -F " ++
           unreachableEnv.control_socket))] :=
  ⟨rfl,
   ((gpsd_control_launch_once unreachableEnv "add" "/dev/ttyUSB0").2.2
      rfl).2.1⟩

/-- A concrete reachable environment whose stat call fails (returns -1),
used by the C9 witness. -/
def statFailEnv : CtlEnv :=
  ⟨"/var/run/gpsd.sock", "-n", true, true, true, true, true, 15, -1, 0,
   0o777⟩

/-- C9: in the connected add path the guard `stat(argument, &sb) != 1`
compares stat's result against 1, a value stat never returns (it returns
0 or -1), so the chmod is attempted for both stat outcomes and the
non-chmod branch is unreachable; when stat fails, the mode handed to
chmod is computed from the uninitialized stat buffer (`junkMode`); and
neither the stat result nor the stat-buffer contents change the bytes
written on the socket or the returned status. -/
theorem gpsd_control_chmod_unconditional (env : CtlEnv) (argument : String)
    (hs : env.socketExists = true) (hc : env.connectOk = true)
    (hstat : env.statRet = 0 ∨ env.statRet = -1) :
    ((gpsd_control env "add" argument).2.filter isChmod =
       [CtlEvent.chmodCall argument (chmodMode env)]) ∧
    (env.statRet = -1 →
       chmodMode env =
         env.junkMode ||| (S_IRUSR ||| S_IWUSR ||| S_IRGRP ||| S_IWGRP)) ∧
    (∀ (sr : Int) (sm jm : Nat),
       ((gpsd_control
           {env with statRet := sr, statMode := sm, junkMode := jm}
           "add" argument).2.filter isSockWrite =
         (gpsd_control env "add" argument).2.filter isSockWrite) ∧
       ((gpsd_control
           {env with statRet := sr, statMode := sm, junkMode := jm}
           "add" argument).1 = (gpsd_control env "add" argument).1)) := by
  have hp : (env.socketExists && env.connectOk) = true := by simp [hs, hc]
  have hne1 : env.statRet ≠ 1 := by
    rcases hstat with h | h <;> simp [h]
  refine ⟨?_, ?_, ?_⟩
  · simp [gpsd_control, commandPhase, hp, statChmodEvents, hne1, isChmod,
      List.filter_append]
  · intro hm1
    simp [chmodMode, hm1]
  · intro sr sm jm
    constructor
    · simp [gpsd_control, commandPhase, hp, hs, hc, statChmodEvents,
        isSockWrite, List.filter_append, apply_ite (List.filter isSockWrite)]
    · simp [gpsd_control, commandPhase, hp, hs, hc]

/-- C9 witness: the chmod theorem at a concrete environment where stat
fails, exhibiting the chmod drawn from the junk buffer. -/
theorem gpsd_control_chmod_unconditional_witness :
    (statFailEnv.socketExists = true) ∧ (statFailEnv.connectOk = true) ∧
    (statFailEnv.statRet = 0 ∨ statFailEnv.statRet = -1) ∧
    ((gpsd_control statFailEnv "add" "/dev/ttyUSB0").2.filter isChmod =
       [CtlEvent.chmodCall "/dev/ttyUSB0" (chmodMode statFailEnv)]) ∧
    (chmodMode statFailEnv =
       statFailEnv.junkMode |||
         (S_IRUSR ||| S_IWUSR ||| S_IRGRP ||| S_IWGRP)) :=
  ⟨rfl, rfl, Or.inr rfl,
   (gpsd_control_chmod_unconditional statFailEnv "/dev/ttyUSB0" rfl rfl
      (Or.inr rfl)).1,
   (gpsd_control_chmod_unconditional statFailEnv "/dev/ttyUSB0" rfl rfl
      (Or.inr rfl)).2.1 rfl⟩
